import Mathlib

/-!
# Verification of the Neural-Symbolic photo-location pipeline core

Shallow embedding of the reasoning pipeline's control and data-shaping logic:

* `src/operators/coding/sql_generator.py` — pairwise spatial query synthesis
  (`compare_relative_longitude`, `generate_spatial_sql`, `generate_sql_queries`);
* `src/operators/coordination/sql_router.py` — the SQL execution routing loop
  (`sql_router_step`, `route_sql_condition`);
* `src/operators/coordination/result_filter.py` — `filter_results`;
* `src/operators/coordination/result_summarizer.py` — `format_results_for_llm`
  and `summarize_result_operator`;
* `src/operators/coordination/intent_classifier.py` — `classify_intent`;
* `src/operators/execution/sql_executor.py` — the error-marker row shape of
  `execute_sql_query`.

Python floats are modelled as exact rationals (`ℚ`); Python strings as Lean
`String` (a sequence of Unicode code points, matching Python's `str`).
External collaborators (the Qwen text generator, the DuckDB executor) are
modelled as explicit function parameters.
-/

namespace NeuralSymbolic

/-! ## Python string primitives

Character-level models of the Python string operations the core uses:
`str.strip`, `str.lower`, substring containment (`in`), lexicographic
comparison (used by `sorted`), and the regex substitutions of the
summarizer's cleanup pass.
-/

/-- The whitespace class of Python's `str.strip` / regex `\s` (ASCII part). -/
def isPySpace (c : Char) : Bool :=
  c = ' ' || c = '\t' || c = '\n' || c = '\r' || c = '\x0b' || c = '\x0c'

/-- Python `str.strip()` on a character list. -/
def pyStripChars (l : List Char) : List Char :=
  ((l.dropWhile isPySpace).reverse.dropWhile isPySpace).reverse

/-- Python `str.strip()`. -/
def pyStrip (s : String) : String := ⟨pyStripChars s.data⟩

/-- Python `str.lower()` (ASCII case folding). -/
def pyLower (s : String) : String := ⟨s.data.map Char.toLower⟩

/-- Does `hay` start with `needle`? (helper for substring containment). -/
def listStartsWith : List Char → List Char → Bool
  | [], _ => true
  | _ :: _, [] => false
  | a :: as, b :: bs => a == b && listStartsWith as bs

/-- Is `needle` a contiguous infix of `hay`? -/
def listInfixOf (needle : List Char) : List Char → Bool
  | [] => listStartsWith needle []
  | b :: bs => listStartsWith needle (b :: bs) || listInfixOf needle bs

/-- Python `needle in hay` substring containment. -/
def strContains (hay needle : String) : Bool := listInfixOf needle.data hay.data

/-- Lexicographic comparison of character lists by code point, as Python
compares strings; `true` also on equality (models `sorted` of two strings). -/
def charListLe : List Char → List Char → Bool
  | [], _ => true
  | _ :: _, [] => false
  | a :: as, b :: bs =>
    if a.toNat < b.toNat then true
    else if b.toNat < a.toNat then false
    else charListLe as bs

/-- `re.sub(r'\s+', ' ', s)`: collapse every whitespace run to one space. -/
def collapseAllWs : List Char → List Char
  | [] => []
  | c :: rest =>
    if isPySpace c then
      ' ' :: collapseAllWs (rest.dropWhile isPySpace)
    else c :: collapseAllWs rest
termination_by l => l.length
decreasing_by
  · simpa using Nat.lt_succ_of_le (List.dropWhile_sublist isPySpace).length_le
  · simp

/-- `re.sub(r'[ \t]+', ' ', s)`: collapse space/tab runs to one space. -/
def collapseSpaceTab : List Char → List Char
  | [] => []
  | c :: rest =>
    if c = ' ' || c = '\t' then
      ' ' :: collapseSpaceTab (rest.dropWhile (fun d => d = ' ' || d = '\t'))
    else c :: collapseSpaceTab rest
termination_by l => l.length
decreasing_by
  · simpa using Nat.lt_succ_of_le (List.dropWhile_sublist _).length_le
  · simp

/-- `re.sub(r'\n{3,}', '\n\n', s)`: shrink runs of three or more newlines
to exactly two. -/
def collapseNewlineRuns : List Char → List Char
  | [] => []
  | c :: rest =>
    if c = '\n' then
      let run := rest.takeWhile (fun d => d = '\n')
      (if 3 ≤ run.length + 1 then ['\n', '\n'] else c :: run) ++
        collapseNewlineRuns (rest.dropWhile (fun d => d = '\n'))
    else c :: collapseNewlineRuns rest
termination_by l => l.length
decreasing_by
  · simpa using Nat.lt_succ_of_le (List.dropWhile_sublist _).length_le
  · simp

/-- Python `s.split(sep)` for a single-character separator. -/
def splitOnChar (sep : Char) : List Char → List (List Char)
  | [] => [[]]
  | c :: rest =>
    if c = sep then [] :: splitOnChar sep rest
    else
      match splitOnChar sep rest with
      | [] => [[c]]
      | h :: t => (c :: h) :: t

/-! ## Data model: detected objects -/

/-- A detection bounding box `[x1, y1, x2, y2]` (the four floats the YOLO
detector returns, modelled exactly as rationals). -/
structure BBox where
  x1 : ℚ
  y1 : ℚ
  x2 : ℚ
  y2 : ℚ
deriving DecidableEq, Repr

/-- `ObjectBox` from `agent/shared/state.py`: a detected object,
`{label, confidence, bbox}`. -/
structure ObjectBox where
  label : String
  confidence : ℚ
  bbox : BBox
deriving DecidableEq, Repr

/-! ## `src/operators/coding/sql_generator.py` -/

/-- `cx` inside `compare_relative_longitude`: the horizontal center
`(bbox[0] + bbox[2]) / 2.0` of an object's bounding box. -/
def cx (box : ObjectBox) : ℚ := (box.bbox.x1 + box.bbox.x2) / 2

/-- `compare_relative_longitude(a, b, sunset)`: `"WEST"` when `a`'s center is
strictly horizontally closer to the sunset's center than `b`'s, `"EAST"`
otherwise. -/
def compare_relative_longitude (a b sunset : ObjectBox) : String :=
  if |cx a - cx sunset| < |cx b - cx sunset| then "WEST" else "EAST"

/-- The `direction_condition` fragment computed at the top of
`generate_spatial_sql`: empty without a sunset reference, otherwise one of the
two directional `ST_X` constraints. -/
def direction_condition (a b : ObjectBox) (sunset : Option ObjectBox) : String :=
  match sunset with
  | some s =>
    if compare_relative_longitude a b s = "WEST" then
      " AND ST_X(a.location) <= ST_X(b.location) "
    else
      " AND ST_X(b.location) <= ST_X(a.location) "
  | none => ""

/-- The raw (pre-normalization) f-string body of `generate_spatial_sql`.
Whitespace runs are irrelevant: the source applies
`re.sub(r'\s+', ' ', sql.strip())` afterwards. -/
def rawSpatialSql (a b : ObjectBox) (sunset : Option ObjectBox) : String :=
  "\n WITH geo_a AS (\n SELECT * FROM geo_table WHERE name LIKE \x27%" ++ a.label ++
  "%\x27\n ), geo_b AS (\n SELECT * FROM geo_table WHERE name LIKE \x27%" ++ b.label ++
  "%\x27\n )\n SELECT\n a.name AS a_name,\n a.address AS a_address,\n " ++
  "b.name AS b_name,\n b.address AS b_address,\n " ++
  "ROUND((st_distance(a.location, b.location) / 0.0111) * 1000) AS distance\n " ++
  "FROM geo_a AS a\n JOIN geo_b AS b ON 1=1\n WHERE 1=1 AND distance > 1 AND distance < 100\n " ++
  direction_condition a b sunset ++
  "\n ORDER BY distance\n LIMIT 3;\n "

/-- `generate_spatial_sql(a, b, sunset)`: render the pairwise proximity query
and normalize its whitespace (`re.sub(r'\s+', ' ', sql.strip())`). -/
def generate_spatial_sql (a b : ObjectBox) (sunset : Option ObjectBox) : String :=
  ⟨collapseAllWs (pyStripChars (rawSpatialSql a b sunset).data)⟩

/-- The inner double loop of `generate_sql_queries`: for each head object `a`,
pair it with every later object `b`, skipping sunset-labelled objects and
same-label pairs (the `continue` in the source). -/
def pairLoop : List ObjectBox → Option ObjectBox → List String
  | [], _ => []
  | a :: rest, sunset =>
    (rest.filterMap fun b =>
      if a.label = "夕阳" || b.label = "夕阳" || a.label = b.label then none
      else some (generate_spatial_sql a b sunset)) ++ pairLoop rest sunset

/-- `generate_sql_queries(objects)`: find the sunset reference object (first
object labelled `"夕阳"`, if any) and emit one SQL statement per unordered
pair of distinct-label non-sunset objects, in original order. -/
def generate_sql_queries (objects : List ObjectBox) : List String :=
  pairLoop objects (objects.find? fun o => o.label = "夕阳")

/-! ## Result rows and `src/operators/execution/sql_executor.py`

A query result row is a flat key→scalar map. The executor either returns rows
with the five declared output columns, or — on any collaborator failure — the
single error-marker row `[{"error": str(e)}]`. We model a row as a record of
optional fields (`none` = key absent), with Python's `row.get(k, default)`
as `Option.getD`. -/

/-- A result row as produced by `execute_sql_query`. -/
structure Row where
  a_name : Option String := none
  a_address : Option String := none
  b_name : Option String := none
  b_address : Option String := none
  distance : Option ℚ := none
  error : Option String := none
deriving DecidableEq, Repr

/-- The error-marker row `{"error": str(e)}` returned by `execute_sql_query`
when the database collaborator raises (src/operators/execution/sql_executor.py,
`except` branch). -/
def errorRow (msg : String) : Row := { error := some msg }

/-! ## `src/operators/coordination/result_filter.py` -/

/-- An element of `filter_results`' output: an `{"sql": ..., "result": ...}`
pair. -/
structure SqlResult where
  sql : String
  result : List Row
deriving DecidableEq, Repr

/-- `filter_results(sql_statements, query_results)`: zip statements with their
results and keep exactly the pairs whose result list is non-empty. (The
source's `isinstance(result, list)` guard is always true here: every
`execute_sql_query` return value is a list.) -/
def filter_results (sql_statements : List String)
    (query_results : List (List Row)) : List SqlResult :=
  (sql_statements.zip query_results).filterMap fun p =>
    if 0 < p.2.length then some ⟨p.1, p.2⟩ else none

/-! ## Pipeline state and `src/operators/coordination/sql_router.py`

`AgentState` models the LangGraph state dict threaded through the pipeline
(the fields the routing loop, filter and summarizer read and write). -/

/-- The pipeline state envelope (`AgentState` in `agent/shared/state.py`). -/
structure AgentState where
  user_text : String := ""
  intent : String := ""
  objects : List ObjectBox := []
  sql_statements : List String := []
  executed_sqls : List String := []
  current_sql : Option String := none
  current_index : Nat := 0
  query_results : List (List Row) := []
  filter_results : List SqlResult := []
  summary : String := ""
deriving Repr

/-- The `remaining` list of `sql_router_step`:
`[sql for sql in sql_list if sql not in executed]` — the not-yet-executed
statements in original synthesis order. -/
def remaining_sqls (st : AgentState) : List String :=
  st.sql_statements.filter fun sql => !st.executed_sqls.contains sql

/-- `sql_router_step(state)`: if nothing remains, return the state unchanged;
otherwise record the first remaining statement as `current_sql` and set
`current_index = len(set(executed)) + 1`. -/
def sql_router_step (st : AgentState) : AgentState :=
  match remaining_sqls st with
  | [] => st
  | current_sql :: _ =>
    { st with current_sql := some current_sql
              current_index := st.executed_sqls.dedup.length + 1 }

/-- `route_sql_condition(state)`: `"continue"` while the set difference
`set(sql_statements) - set(executed_sqls)` is non-empty, else `"done"`.
(Set-difference emptiness coincides with emptiness of the order-preserving
`remaining` filter.) -/
def route_sql_condition (st : AgentState) : String :=
  if remaining_sqls st = [] then "done" else "continue"

/-- Modelled from the spec: the SQL-execution graph node
(`agent/executionAgent/ExecutionAgent.py`, not under `src/`; §4.3 of the
spec): dispatch `current_sql` to the external query-execution collaborator,
append the returned rows to the accumulator and add the dispatched key to
`executed_sqls`, then hand control back to the router. -/
def execute_sql_step (execQ : String → List Row) (st : AgentState) : AgentState :=
  match st.current_sql with
  | none => st
  | some sql =>
    { st with query_results := st.query_results ++ [execQ sql]
              executed_sqls := st.executed_sqls ++ [sql] }

/-- The `sql_router → execute_sql → sql_router` loop of the compiled graph
(`DecompositionAgent.build_graph` / `graph_builder.py`): run the router, check
the routing condition, and while it says `"continue"` dispatch the selected
statement and repeat. Returns the final state together with the trace of
dispatched descriptor keys; `fuel` bounds the iteration count (any fuel of at
least `len(sql_statements) + 1` reaches `"done"`). -/
def sqlLoop (execQ : String → List Row) : Nat → AgentState → AgentState × List String
  | 0, st => (st, [])
  | fuel + 1, st =>
    let st' := sql_router_step st
    if route_sql_condition st' = "continue" then
      let st'' := execute_sql_step execQ st'
      let rec_result := sqlLoop execQ fuel st''
      (rec_result.1, st'.current_sql.toList ++ rec_result.2)
    else (st', [])

/-! ## `src/operators/coordination/result_summarizer.py` — location ranking -/

/-- An entry of `all_locations` in `format_results_for_llm`: one deduplicated
location pair with its relevance data. -/
structure LocationInfo where
  location_a_name : String
  location_a_address : String
  location_b_name : String
  location_b_address : String
  distance : ℚ
  match_count : Nat
deriving DecidableEq, Repr

/-- `high_confidence_objects`: detected objects with `confidence > 0.7`,
excluding the sunset reference marker. -/
def high_confidence_objects (detected_objects : List ObjectBox) : List ObjectBox :=
  detected_objects.filter fun o => decide ((0.7 : ℚ) < o.confidence) && decide (o.label ≠ "夕阳")

/-- `object_labels`: the labels of the high-confidence non-reference objects,
in detection order. -/
def object_labels (detected_objects : List ObjectBox) : List String :=
  (high_confidence_objects detected_objects).map ObjectBox.label

/-- `pair_key = tuple(sorted([loc_a, loc_b]))`: the order-independent
deduplication key of a result row's two location names (`row.get` defaults
to the empty string for a missing column, as on an error-marker row). -/
def pair_key (r : Row) : List Char × List Char :=
  let la := (r.a_name.getD "").data
  let lb := (r.b_name.getD "").data
  if charListLe la lb then (la, lb) else (lb, la)

/-- Build one `location_info` dict from a row: the five column values (with
`row.get` defaults) and `match_count` = the number of high-confidence detected
labels substring-contained in either location name. -/
def mkLocationInfo (labels : List String) (r : Row) : LocationInfo :=
  { location_a_name := r.a_name.getD ""
    location_a_address := r.a_address.getD ""
    location_b_name := r.b_name.getD ""
    location_b_address := r.b_address.getD ""
    distance := r.distance.getD 0
    match_count :=
      (labels.filter fun label =>
        strContains (r.a_name.getD "") label || strContains (r.b_name.getD "") label).length }

/-- The deduplication loop of `format_results_for_llm`: walk the rows in order,
keep a row only when its `pair_key` has not been seen, and turn each kept row
into a `location_info`. -/
def dedupeRows (labels : List String) :
    List Row → List (List Char × List Char) → List LocationInfo
  | [], _ => []
  | r :: rest, seen_pairs =>
    if pair_key r ∈ seen_pairs then dedupeRows labels rest seen_pairs
    else mkLocationInfo labels r :: dedupeRows labels rest (pair_key r :: seen_pairs)

/-- All result rows of the filtered records, in record order then row order
(the nested `for res ... for row ...` loop). -/
def all_rows (filterResults : List SqlResult) : List Row :=
  (filterResults.map SqlResult.result).flatten

/-- `all_locations` after the deduplication loop (before sorting). -/
def all_locations (filterResults : List SqlResult)
    (detectedObjects : List ObjectBox) : List LocationInfo :=
  dedupeRows (object_labels detectedObjects) (all_rows filterResults) []

/-- The sort key comparison `key=lambda x: (-match_count, distance)`:
`x` may come before `y` iff `x`'s key tuple is `≤` `y`'s, i.e. `x` has more
matches, or equally many and no larger distance. (The source's `.get` defaults
never fire: every `location_info` carries both keys.) -/
def locLe (x y : LocationInfo) : Bool :=
  decide (y.match_count < x.match_count ∨
    (x.match_count = y.match_count ∧ x.distance ≤ y.distance))

/-- `all_locations.sort(key=lambda x: (-match_count, distance))`: Python's
`list.sort` is a stable sort, modelled by stable `mergeSort`. -/
def sorted_locations (filterResults : List SqlResult)
    (detectedObjects : List ObjectBox) : List LocationInfo :=
  (all_locations filterResults detectedObjects).mergeSort locLe

/-- `num_locations = len(all_locations)` (counted after sorting, which
preserves length). -/
def num_locations (filterResults : List SqlResult)
    (detectedObjects : List ObjectBox) : Nat :=
  (sorted_locations filterResults detectedObjects).length

/-- `top_locations = all_locations[:3]`: the top 3 most relevant locations. -/
def top_locations (filterResults : List SqlResult)
    (detectedObjects : List ObjectBox) : List LocationInfo :=
  (sorted_locations filterResults detectedObjects).take 3

/-! ### Text rendering of `format_results_for_llm` -/

/-- Round-half-even, as Python's `format` rounds (`:.0%`, `:.0f`). -/
def ratRoundHalfEven (q : ℚ) : ℤ :=
  if q - ⌊q⌋ < 1/2 then ⌊q⌋
  else if 1/2 < q - ⌊q⌋ then ⌊q⌋ + 1
  else if ⌊q⌋ % 2 = 0 then ⌊q⌋ else ⌊q⌋ + 1

/-- Python `f"{q:.0%}"`. -/
def fmtPercent0 (q : ℚ) : String := toString (ratRoundHalfEven (q * 100)) ++ "%"

/-- Python `f"{q:.0f}"`. -/
def fmtFloat0 (q : ℚ) : String := toString (ratRoundHalfEven q)

/-- The `objects_text` block: header plus one numbered line per
high-confidence non-reference object. -/
def objectsText (detectedObjects : List ObjectBox) : String :=
  "Key objects detected in the image:\n" ++
  String.join ((high_confidence_objects detectedObjects).enum.map fun p =>
    toString (p.1 + 1) ++ ". " ++ p.2.label ++ " (confidence: " ++
    fmtPercent0 p.2.confidence ++ ")\n")

/-- `match_info`: phrase describing a pair's match strength. -/
def matchInfoText (n : Nat) : String :=
  if 0 < n then "matches " ++ toString n ++ " detected objects"
  else "no direct object match"

/-- The `locations_text` block: header plus one option block per top
location. -/
def locationsText (top : List LocationInfo) : String :=
  "\nGeographic location analysis results (sorted by relevance):\n" ++
  String.join (top.enum.map fun p =>
    "\nOption " ++ toString (p.1 + 1) ++ " (" ++ matchInfoText p.2.match_count ++
    ", distance: " ++ fmtFloat0 p.2.distance ++ "m):\n  - " ++
    p.2.location_a_name ++ " (" ++ p.2.location_a_address ++ ")\n  - " ++
    p.2.location_b_name ++ " (" ++ p.2.location_b_address ++ ")\n")

/-- `format_results_for_llm(filter_results, detected_objects)`: the formatted
text for the LLM and the number of available (deduplicated) location
options. -/
def format_results_for_llm (filterResults : List SqlResult)
    (detectedObjects : List ObjectBox) : String × Nat :=
  (objectsText detectedObjects ++
     locationsText (top_locations filterResults detectedObjects),
   num_locations filterResults detectedObjects)

/-! ### The summary cleanup pass of `summarize_result_operator` -/

/-- Sentence-ending punctuation (`'.!?'`). -/
def isSentencePunct (c : Char) : Bool := c = '.' || c = '!' || c = '?'

/-- `re.split(r'([.!?]\s+)', para)`: split a paragraph at sentence boundaries,
keeping each delimiter (punctuation plus the maximal following whitespace run)
as its own element between text chunks. -/
def splitSentenceChunks : List Char → List (List Char)
  | [] => [[]]
  | c :: rest =>
    if isSentencePunct c && !(rest.takeWhile isPySpace).isEmpty then
      [] :: (c :: rest.takeWhile isPySpace) ::
        splitSentenceChunks (rest.dropWhile isPySpace)
    else
      match splitSentenceChunks rest with
      | [] => [[c]]
      | h :: t => (c :: h) :: t
termination_by l => l.length
decreasing_by
  · simpa using Nat.lt_succ_of_le (List.dropWhile_sublist _).length_le
  · simp

/-- The `for i in range(0, len(sentences), 2)` pairing: each text chunk with
its delimiter (`''` when the trailing chunk has none). -/
def sentencePairs : List (List Char) → List (List Char × List Char)
  | [] => []
  | [t] => [(t, [])]
  | t :: d :: rest => (t, d) :: sentencePairs rest

/-- The near-duplicate test: one sentence (lowercased) is a substring of the
other and their length difference is under 30% of the longer one
(`abs(len(text) - len(seen)) < max(len(text), len(seen)) * 0.3`). -/
def isNearDuplicate (textLower seenSentence : List Char) : Bool :=
  (listInfixOf textLower seenSentence || listInfixOf seenSentence textLower) &&
  decide (((textLower.length : ℤ) - seenSentence.length).natAbs * 10 <
    3 * max textLower.length seenSentence.length)

/-- The per-paragraph sentence deduplication loop: keep a sentence when it is
non-empty after stripping, not literally seen before (lowercased), and not a
near-duplicate of a seen sentence. -/
def dedupSentencesLoop :
    List (List Char × List Char) → List (List Char) → List (List Char)
  | [], _ => []
  | (t, p) :: rest, seen_in_para =>
    let text := pyStripChars t
    if !text.isEmpty && !seen_in_para.contains (text.map Char.toLower) then
      if seen_in_para.any (fun seen => isNearDuplicate (text.map Char.toLower) seen) then
        dedupSentencesLoop rest seen_in_para
      else (text ++ p) :: dedupSentencesLoop rest (text.map Char.toLower :: seen_in_para)
    else dedupSentencesLoop rest seen_in_para

/-- Deduplicate one paragraph's sentences (`cleaned_sentences`). -/
def cleanParagraph (para : List Char) : List (List Char) :=
  dedupSentencesLoop (sentencePairs (splitSentenceChunks para)) []

/-- The paragraph pass: skip whitespace-only paragraphs, deduplicate
sentences, join each kept paragraph's sentences with a space. -/
def cleanParagraphs (paragraphs : List (List Char)) : List (List Char) :=
  paragraphs.filterMap fun para =>
    if (pyStripChars para).isEmpty then none
    else
      let cleaned := cleanParagraph para
      if cleaned.isEmpty then none else some (List.intercalate [' '] cleaned)

/-- The line pass: strip each line; keep non-empty lines; keep a single empty
line as a paragraph marker after content. -/
def cleanLines (lines : List (List Char)) : List (List Char) :=
  lines.foldl (fun cleaned_lines line =>
    let stripped := pyStripChars line
    if !stripped.isEmpty then cleaned_lines ++ [stripped]
    else if !cleaned_lines.isEmpty && !(cleaned_lines.getLast?.getD []).isEmpty then
      cleaned_lines ++ [[]]
    else cleaned_lines) []

/-- The final `if summary and not summary[-1] in '.!?': summary += '.'`. -/
def ensureEndsPunct (l : List Char) : List Char :=
  match l.getLast? with
  | none => l
  | some c => if isSentencePunct c then l else l ++ ['.']

/-- The whole cleanup applied to the generator's raw output: skipped entirely
when the output is empty (`if summary:`), otherwise trim, collapse
whitespace, rebuild paragraphs, drop near-duplicate sentences, and force
terminal punctuation. -/
def cleanupSummary (s : String) : String :=
  if s = "" then s
  else
    let l₁ := pyStripChars s.data
    let l₂ := collapseSpaceTab l₁
    let l₃ := collapseNewlineRuns l₂
    let lines := splitOnChar '\n' l₃
    let joined := List.intercalate ['\n', '\n'] ((cleanLines lines).filter fun l => !l.isEmpty)
    let paragraphs := ((String.mk joined).splitOn "\n\n").map String.data
    let rejoined := List.intercalate ['\n', '\n'] (cleanParagraphs paragraphs)
    ⟨ensureEndsPunct rejoined⟩

/-! ### Prompt assembly and the summarizer operator -/

/-- A chat message handed to an LLM collaborator. -/
structure Message where
  role : String
  content : String
deriving DecidableEq, Repr

/-- The fixed no-result summary. -/
def noResultMsg : String := "No location information could be determined from the image."

/-- `format_instructions` for exactly one location option. -/
def format_instructions_one : String :=
  "Write a SINGLE paragraph describing the location. " ++
  "Start with \x27This photo was likely taken...\x27 and provide a detailed description " ++
  "including the specific address, nearby landmarks, and supporting evidence."

/-- `paragraph_guidance` for exactly one location option. -/
def paragraph_guidance_one : String :=
  "Write exactly ONE paragraph. " ++
  "Start with \x27This photo was likely taken...\x27 and describe the location in detail."

/-- `format_instructions` for exactly two location options. -/
def format_instructions_two : String :=
  "Write TWO paragraphs, each separated by a blank line. " ++
  "Paragraph 1 (HIGHEST PRIORITY): Start with \x27This photo was likely taken...\x27 - describe Option 1. " ++
  "Paragraph 2 (SECOND PRIORITY): Start with \x27Alternatively, it could also be...\x27 or \x27It could also be...\x27 - describe Option 2."

/-- `paragraph_guidance` for exactly two location options. -/
def paragraph_guidance_two : String :=
  "Write exactly TWO paragraphs, each separated by a blank line. " ++
  "Start the first paragraph with \x27This photo was likely taken...\x27, " ++
  "and the second with \x27Alternatively, it could also be...\x27 or \x27It could also be...\x27."

/-- `format_instructions` for three or more location options. -/
def format_instructions_three : String :=
  "Write THREE paragraphs, each separated by a blank line. " ++
  "Paragraph 1 (HIGHEST PRIORITY): Start with \x27This photo was likely taken...\x27 - describe Option 1. " ++
  "Paragraph 2 (SECOND PRIORITY): Start with \x27Alternatively, it could also be...\x27 or \x27It could also be...\x27 - describe Option 2. " ++
  "Paragraph 3 (THIRD PRIORITY): Start with \x27Another possibility is...\x27 or \x27Additionally, it might be...\x27 - describe Option 3."

/-- `paragraph_guidance` for three or more location options. -/
def paragraph_guidance_three : String :=
  "Write exactly THREE paragraphs, each separated by a blank line. " ++
  "Start the first paragraph with \x27This photo was likely taken...\x27, " ++
  "the second with \x27Alternatively, it could also be...\x27 or \x27It could also be...\x27, " ++
  "and the third with \x27Another possibility is...\x27 or \x27Additionally, it might be...\x27."

/-- The system message content of the summarizer prompt. -/
def summarySystemContent (format_instructions : String) : String :=
  "You are a helpful assistant that describes photo locations in a natural, friendly, and informative way. " ++
  "Based on the detected objects and geographic location analysis results, provide a clear and engaging summary " ++
  "answering where the photo was likely taken. " ++
  "\nIMPORTANT FORMATTING REQUIREMENTS:\n" ++ format_instructions ++
  "\n\nContent Guidelines:\n" ++
  "- Prioritize locations that match multiple detected objects (higher match_count = more relevant)\n" ++
  "- Mention the key landmarks or objects that helped identify each location\n" ++
  "- Include specific addresses, street names, or area names when available\n" ++
  "- Mention the distance between landmarks when relevant\n" ++
  "- Write in a conversational, user-friendly tone\n" ++
  "- Each paragraph should be 2-3 sentences\n" ++
  "- Be confident for the first paragraph (highest match_count), but acknowledge lower confidence for subsequent options\n" ++
  "- Focus on what makes each location identifiable (nearby landmarks, objects, etc.)"

/-- The user message content of the summarizer prompt. -/
def summaryUserContent (formatted_data paragraph_guidance : String) : String :=
  "Based on the following analysis, describe where this photo was likely taken:\n\n" ++
  formatted_data ++ "\n\n" ++ paragraph_guidance

/-- The two-message prompt handed to the external text generator. -/
def summaryMessages (format_instructions paragraph_guidance formatted_data : String) :
    List Message :=
  [⟨"system", summarySystemContent format_instructions⟩,
   ⟨"user", summaryUserContent formatted_data paragraph_guidance⟩]

/-- `summarize_result_operator(state)`, with the external text generator
(`QwenWrapper().chat`) passed in as `gen`: early no-result return when the
filtered results or the detected objects are empty; otherwise pick the
paragraph template from the number of location options, invoke the generator,
clean up its output, and store it as `summary`. -/
def summarize_result_operator (gen : List Message → String) (st : AgentState) : AgentState :=
  if st.filter_results.isEmpty || st.objects.isEmpty then
    { st with summary := noResultMsg }
  else
    let formatted := format_results_for_llm st.filter_results st.objects
    if formatted.2 = 0 then { st with summary := noResultMsg }
    else
      let fi_pg :=
        if formatted.2 = 1 then (format_instructions_one, paragraph_guidance_one)
        else if formatted.2 = 2 then (format_instructions_two, paragraph_guidance_two)
        else (format_instructions_three, paragraph_guidance_three)
      { st with summary :=
          cleanupSummary (gen (summaryMessages fi_pg.1 fi_pg.2 formatted.1)) }

/-! ## `src/operators/coordination/intent_classifier.py` -/

/-- The fixed two-label instruction of the intent classifier. -/
def intentSystemContent : String :=
  "You are an intent classification assistant, you can only choose one of two labels:\n" ++
  "1. chat: indicates the user just wants to chat or ask questions\n" ++
  "2. reasoning: indicates the user uploaded an image and wants to analyze the shooting location, identify location, or reason about geographic information\n" ++
  "Please strictly reply with only one label: chat or reasoning, do not add any other content."

/-- The two-message prompt of `classify_intent`. -/
def intentMessages (user_text : String) : List Message :=
  [⟨"system", intentSystemContent⟩,
   ⟨"user", "User input is as follows:\n" ++ user_text ++ "\nPlease determine the user\x27s intent type:"⟩]

/-- `classify_intent(user_text)`, with the external classifier LLM passed in
as `gen`: normalize the response with `.strip().lower()` and coerce anything
outside the two labels to `"chat"`. -/
def classify_intent (gen : List Message → String) (user_text : String) : String :=
  let intent := pyLower (pyStrip (gen (intentMessages user_text)))
  if intent = "chat" || intent = "reasoning" then intent else "chat"

/-! ## Helper lemmas for the execution loop -/

/-- The router never changes the statement list or the executed set. -/
lemma sql_router_step_preserves (st : AgentState) :
    (sql_router_step st).sql_statements = st.sql_statements ∧
      (sql_router_step st).executed_sqls = st.executed_sqls := by
  unfold sql_router_step
  cases remaining_sqls st <;> simp

/-- `remaining` is invariant under the router step. -/
lemma remaining_sqls_router_step (st : AgentState) :
    remaining_sqls (sql_router_step st) = remaining_sqls st := by
  unfold remaining_sqls
  rw [(sql_router_step_preserves st).1, (sql_router_step_preserves st).2]

/-- Membership in `remaining` means: in the statement list and not yet
executed. -/
lemma mem_remaining_sqls {st : AgentState} {k : String} :
    k ∈ remaining_sqls st ↔ k ∈ st.sql_statements ∧ k ∉ st.executed_sqls := by
  simp [remaining_sqls]

/-- `"continue"` exactly when something remains. -/
lemma route_continue_iff (st : AgentState) :
    route_sql_condition st = "continue" ↔ remaining_sqls st ≠ [] := by
  unfold route_sql_condition
  split <;> simp_all

/-- When something remains, the router selects the head of `remaining`. -/
lemma sql_router_step_current {st : AgentState} (h : remaining_sqls st ≠ []) :
    (sql_router_step st).current_sql = (remaining_sqls st).head? := by
  unfold sql_router_step
  cases hr : remaining_sqls st with
  | nil => exact absurd hr h
  | cons c t => simp

/-- Every key dispatched by the loop was not yet executed at loop entry. -/
lemma sqlLoop_dispatch_not_executed (execQ : String → List Row) :
    ∀ (fuel : Nat) (st : AgentState) (k : String),
      k ∈ (sqlLoop execQ fuel st).2 → k ∉ st.executed_sqls := by
  intro fuel
  induction fuel with
  | zero => intro st k hk; simp [sqlLoop] at hk
  | succ n ih =>
    intro st k hk
    rw [sqlLoop] at hk
    by_cases hc : route_sql_condition (sql_router_step st) = "continue"
    · rw [if_pos hc] at hk
      have hrem : remaining_sqls st ≠ [] := by
        rw [route_continue_iff, remaining_sqls_router_step] at hc
        exact hc
      obtain ⟨c, t, hct⟩ : ∃ c t, remaining_sqls st = c :: t := by
        cases hr : remaining_sqls st with
        | nil => exact absurd hr hrem
        | cons c t => exact ⟨c, t, rfl⟩
      have hcur : (sql_router_step st).current_sql = some c := by
        rw [sql_router_step_current hrem, hct]; rfl
      simp only [hcur, Option.toList_some, List.mem_append, List.mem_singleton] at hk
      have hcmem : c ∈ remaining_sqls st := by rw [hct]; exact List.mem_cons_self c t
      have hcnot : c ∉ st.executed_sqls := (mem_remaining_sqls.mp hcmem).2
      rcases hk with hk | hk
      · subst hk; exact hcnot
      · have := ih (execute_sql_step execQ (sql_router_step st)) k hk
        intro hmem
        apply this
        unfold execute_sql_step
        rw [hcur]
        simp [(sql_router_step_preserves st).2]
        exact Or.inl hmem
    · rw [if_neg hc] at hk
      simp at hk

/-- C1: in every run of the SQL execution loop the trace of dispatched
descriptor keys is duplicate-free; `route_sql_condition` returns `"done"` iff
(under the run invariant that executed keys come from the statement list) the
set of executed keys equals the set of all descriptor keys; and whenever it
returns `"continue"`, the router selects the first not-yet-executed statement
in original synthesis order as `current_sql`. -/
theorem execution_router_no_repeat_and_done_iff :
    (∀ (execQ : String → List Row) (fuel : Nat) (st : AgentState),
        ((sqlLoop execQ fuel st).2).Nodup) ∧
    (∀ st : AgentState, (∀ k ∈ st.executed_sqls, k ∈ st.sql_statements) →
        (route_sql_condition st = "done" ↔
          ((∀ k ∈ st.sql_statements, k ∈ st.executed_sqls) ∧
           (∀ k ∈ st.executed_sqls, k ∈ st.sql_statements)))) ∧
    (∀ st : AgentState, route_sql_condition st = "continue" →
        (sql_router_step st).current_sql = (remaining_sqls st).head?) := by
  refine ⟨fun execQ fuel => ?_, fun st hsub => ?_, fun st hc => ?_⟩
  · induction fuel with
    | zero => intro st; simp [sqlLoop]
    | succ n ih =>
      intro st
      rw [sqlLoop]
      by_cases hc : route_sql_condition (sql_router_step st) = "continue"
      · rw [if_pos hc]
        have hrem : remaining_sqls st ≠ [] := by
          rw [route_continue_iff, remaining_sqls_router_step] at hc
          exact hc
        obtain ⟨c, t, hct⟩ : ∃ c t, remaining_sqls st = c :: t := by
          cases hr : remaining_sqls st with
          | nil => exact absurd hr hrem
          | cons c t => exact ⟨c, t, rfl⟩
        have hcur : (sql_router_step st).current_sql = some c := by
          rw [sql_router_step_current hrem, hct]; rfl
        simp only [hcur, Option.toList_some, List.singleton_append]
        rw [List.nodup_cons]
        constructor
        · intro hmem
          have := sqlLoop_dispatch_not_executed execQ n
            (execute_sql_step execQ (sql_router_step st)) c hmem
          apply this
          unfold execute_sql_step
          rw [hcur]
          simp [(sql_router_step_preserves st).2]
        · exact ih _
      · rw [if_neg hc]; simp
  · unfold route_sql_condition
    split
    · rename_i hnil
      simp only [List.filter_eq_nil_iff, remaining_sqls] at hnil
      constructor
      · intro _
        refine ⟨fun k hk => ?_, hsub⟩
        have := hnil k hk
        simpa using this
      · intro _; rfl
    · rename_i hne
      constructor
      · intro h; exact absurd h (by decide)
      · rintro ⟨h1, _⟩
        exfalso
        apply hne
        simp only [remaining_sqls, List.filter_eq_nil_iff]
        intro k hk
        simpa using h1 k hk
  · rw [route_continue_iff] at hc
    exact sql_router_step_current hc

/-- C1 witness: on a concrete two-statement state with one statement already
executed, the loop dispatch trace is duplicate-free, the router selects the
first remaining statement, and after executing everything the condition
reads `"done"`. -/
theorem execution_router_no_repeat_and_done_iff_witness :
    ((sqlLoop (fun _ => []) 3 { sql_statements := ["q1", "q2"], executed_sqls := ["q1"] }).2).Nodup ∧
    (sql_router_step { sql_statements := ["q1", "q2"], executed_sqls := ["q1"] }).current_sql =
      (remaining_sqls { sql_statements := ["q1", "q2"], executed_sqls := ["q1"] }).head? ∧
    route_sql_condition { sql_statements := ["q1", "q2"], executed_sqls := ["q2", "q1"] } = "done" :=
  ⟨execution_router_no_repeat_and_done_iff.1 (fun _ => []) 3 _,
   execution_router_no_repeat_and_done_iff.2.2 _ (by decide),
   (execution_router_no_repeat_and_done_iff.2.1 _ (by decide)).mpr (by decide)⟩

/-! ## Counting the synthesizer's output -/

/-- The non-reference detected objects (reference marker `"夕阳"` removed). -/
def nonRefObjects (objects : List ObjectBox) : List ObjectBox :=
  objects.filter fun o => !decide (o.label = "夕阳")

/-- The number of (position-ordered) pairs of list elements with equal
labels. -/
def countSameLabelPairs : List ObjectBox → Nat
  | [] => 0
  | a :: rest =>
    (rest.filter fun b => decide (a.label = b.label)).length + countSameLabelPairs rest

/-- Length of a `filterMap` whose function is an if-skip. -/
lemma length_filterMap_if {β γ : Type _} (p : β → Bool) (g : β → γ) (l : List β) :
    (l.filterMap fun b => if p b then none else some (g b)).length =
      (l.filter fun b => !p b).length := by
  induction l with
  | nil => rfl
  | cons b t ih =>
    by_cases hb : p b = true
    · simp [List.filterMap_cons, List.filter_cons, hb, ih]
    · simp only [Bool.not_eq_true] at hb
      simp [List.filterMap_cons, List.filter_cons, hb, ih]

/-- One step of the pair loop: descriptors from the head plus descriptors from
the tail, with the head contribution counted as a filter length. -/
lemma pairLoop_count (sunset : Option ObjectBox) :
    ∀ objs : List ObjectBox,
      (pairLoop objs sunset).length + countSameLabelPairs (nonRefObjects objs) =
        (nonRefObjects objs).length.choose 2 := by
  intro objs
  induction objs with
  | nil => simp [pairLoop, nonRefObjects, countSameLabelPairs]
  | cons a l ih =>
    by_cases ha : a.label = "夕阳"
    · have h1 : pairLoop (a :: l) sunset = pairLoop l sunset := by
        rw [pairLoop]
        have : (l.filterMap fun b =>
            if a.label = "夕阳" || b.label = "夕阳" || a.label = b.label then none
            else some (generate_spatial_sql a b sunset)) = [] := by
          apply List.filterMap_eq_nil_iff.mpr
          intro b _
          simp [ha]
        rw [this, List.nil_append]
      have h2 : nonRefObjects (a :: l) = nonRefObjects l := by
        simp [nonRefObjects, List.filter_cons, ha]
      rw [h1, h2]
      exact ih
    · have h2 : nonRefObjects (a :: l) = a :: nonRefObjects l := by
        simp [nonRefObjects, List.filter_cons, ha]
      have h1 : (pairLoop (a :: l) sunset).length =
          ((nonRefObjects l).filter fun b => !decide (a.label = b.label)).length +
            (pairLoop l sunset).length := by
        rw [pairLoop, List.length_append]
        congr 1
        rw [length_filterMap_if
          (fun b => a.label = "夕阳" || b.label = "夕阳" || a.label = b.label)
          (fun b => generate_spatial_sql a b sunset) l]
        rw [nonRefObjects, List.filter_filter]
        congr 1
        apply List.filter_congr
        intro b _
        simp [ha, Bool.not_or, Bool.and_comm]
      rw [h1, h2]
      rw [countSameLabelPairs]
      have hsplit :
          ((nonRefObjects l).filter fun b => decide (a.label = b.label)).length +
            ((nonRefObjects l).filter fun b => !decide (a.label = b.label)).length =
            (nonRefObjects l).length := by
        exact (List.length_eq_length_filter_add _).symm
      have hchoose : ((nonRefObjects l).length + 1).choose 2 =
          (nonRefObjects l).length + (nonRefObjects l).length.choose 2 := by
        rw [Nat.choose_succ_succ, Nat.choose_one_right]
      simp only [List.length_cons, hchoose]
      omega

/-- When every element carries the same label, all pairs are same-label
pairs. -/
lemma countSameLabelPairs_of_all_eq (L : String) :
    ∀ l : List ObjectBox, (∀ o ∈ l, o.label = L) →
      countSameLabelPairs l = l.length.choose 2 := by
  intro l
  induction l with
  | nil => intro _; rfl
  | cons a t ih =>
    intro h
    rw [countSameLabelPairs]
    have hfil : (t.filter fun b => decide (a.label = b.label)) = t := by
      apply List.filter_eq_self.mpr
      intro b hb
      simp [h a (List.mem_cons_self a t), h b (List.mem_cons_of_mem a hb)]
    rw [hfil, ih fun o ho => h o (List.mem_cons_of_mem a ho)]
    rw [List.length_cons, Nat.choose_succ_succ, Nat.choose_one_right]

/-- C3: the synthesizer emits exactly `C(n,2)` descriptors minus the number of
same-label pairs, where `n` is the number of non-reference objects; zero or
one non-reference object, or all labels identical, yields the empty list. -/
theorem synthesizer_choose_two_minus_same_label :
    (∀ objs : List ObjectBox,
        (generate_sql_queries objs).length =
          (nonRefObjects objs).length.choose 2 -
            countSameLabelPairs (nonRefObjects objs)) ∧
    (∀ objs : List ObjectBox,
        (nonRefObjects objs).length ≤ 1 → generate_sql_queries objs = []) ∧
    (∀ (objs : List ObjectBox) (L : String),
        (∀ o ∈ nonRefObjects objs, o.label = L) → generate_sql_queries objs = []) := by
  have key : ∀ objs : List ObjectBox,
      (generate_sql_queries objs).length +
        countSameLabelPairs (nonRefObjects objs) =
        (nonRefObjects objs).length.choose 2 := by
    intro objs
    exact pairLoop_count (objs.find? fun o => o.label = "夕阳") objs
  refine ⟨fun objs => ?_, fun objs hle => ?_, fun objs L hall => ?_⟩
  · have := key objs
    omega
  · have h0 : (nonRefObjects objs).length.choose 2 = 0 :=
      Nat.choose_eq_zero_of_lt (by omega)
    have := key objs
    have hlen : (generate_sql_queries objs).length = 0 := by omega
    exact List.length_eq_zero.mp hlen
  · have hsame := countSameLabelPairs_of_all_eq L (nonRefObjects objs) hall
    have := key objs
    have hlen : (generate_sql_queries objs).length = 0 := by omega
    exact List.length_eq_zero.mp hlen

/-! ## Concrete scenario objects (spec §8 end-to-end scenario) -/

/-- The tower object of the end-to-end scenario:
`{label:"塔", confidence:0.9, bbox:[10,10,50,50]}`. -/
def towerObj : ObjectBox := ⟨"塔", 0.9, ⟨10, 10, 50, 50⟩⟩

/-- The bridge object of the end-to-end scenario:
`{label:"桥", confidence:0.85, bbox:[200,10,240,50]}`. -/
def bridgeObj : ObjectBox := ⟨"桥", 0.85, ⟨200, 10, 240, 50⟩⟩

/-- The sunset reference marker of the end-to-end scenario:
`{label:"夕阳", confidence:0.99, bbox:[5,5,15,15]}`. -/
def sunsetObj : ObjectBox := ⟨"夕阳", 0.99, ⟨5, 5, 15, 15⟩⟩

/-- C3 witness: a single non-reference object yields no descriptor, and two
same-label objects yield no descriptor. -/
theorem synthesizer_choose_two_minus_same_label_witness :
    generate_sql_queries [towerObj] = [] ∧
    generate_sql_queries [towerObj, { towerObj with bbox := ⟨0, 0, 0, 0⟩ }] = [] :=
  ⟨synthesizer_choose_two_minus_same_label.2.1 [towerObj] (by decide),
   synthesizer_choose_two_minus_same_label.2.2
     [towerObj, { towerObj with bbox := ⟨0, 0, 0, 0⟩ }] "塔" (by decide)⟩

/-- C5: the derived direction is `"WEST"` exactly when `a`'s center is
strictly closer to the reference center than `b`'s, `"EAST"` otherwise; and on
the scenario objects the synthesizer emits exactly one descriptor, for the
pair (塔, 桥), whose derived direction is `"WEST"`. -/
theorem direction_west_iff_closer_scenario :
    (∀ a b s : ObjectBox,
        (compare_relative_longitude a b s = "WEST" ↔
          |cx a - cx s| < |cx b - cx s|) ∧
        (compare_relative_longitude a b s = "EAST" ↔
          ¬ |cx a - cx s| < |cx b - cx s|)) ∧
    generate_sql_queries [towerObj, bridgeObj, sunsetObj] =
      [generate_spatial_sql towerObj bridgeObj (some sunsetObj)] ∧
    compare_relative_longitude towerObj bridgeObj sunsetObj = "WEST" := by
  refine ⟨fun a b s => ?_, rfl, ?_⟩
  · unfold compare_relative_longitude
    by_cases h : |cx a - cx s| < |cx b - cx s|
    · rw [if_pos h]
      constructor <;> simp [h]
    · rw [if_neg h]
      constructor <;> simp [h]
  · unfold compare_relative_longitude
    rw [if_pos]
    norm_num [cx, towerObj, bridgeObj, sunsetObj]

/-- C5 witness: instantiating the characterization on the scenario objects,
塔's center is strictly closer to 夕阳's center than 桥's. -/
theorem direction_west_iff_closer_scenario_witness :
    |cx towerObj - cx sunsetObj| < |cx bridgeObj - cx sunsetObj| :=
  (direction_west_iff_closer_scenario.1 towerObj bridgeObj sunsetObj).1.mp
    direction_west_iff_closer_scenario.2.2

/-! ## Semantics of the emitted directional constraint (C6) -/

/-- Truth value of one of the two directional constraint fragments on a pair
of candidate longitudes: `x_a` is the longitude of the row matched for the
first object of the `generate_spatial_sql` call (CTE `geo_a`), `x_b` for the
second (CTE `geo_b`); the empty fragment imposes nothing. -/
def directionConditionHolds (cond : String) (x_a x_b : ℚ) : Bool :=
  if cond = " AND ST_X(a.location) <= ST_X(b.location) " then decide (x_a ≤ x_b)
  else if cond = " AND ST_X(b.location) <= ST_X(a.location) " then decide (x_b ≤ x_a)
  else true

/-- Tie objects: both centers (0 and 20) at distance 10 from the reference
center (10). -/
def tieA : ObjectBox := ⟨"灯塔", 0.9, ⟨0, 0, 0, 0⟩⟩

/-- Second tie object, see `tieA`. -/
def tieB : ObjectBox := ⟨"教堂", 0.9, ⟨20, 0, 20, 0⟩⟩

/-- Tie reference marker with center 10, see `tieA`. -/
def tieRef : ObjectBox := ⟨"夕阳", 0.9, ⟨5, 5, 15, 15⟩⟩

/-- C6 counterexample: when the two objects' centers are equidistant from the
reference center, both argument orders derive `"EAST"`, so the two rendered
constraints impose opposite orderings on the same pair of longitudes:
at longitudes (0, 1) the (a, b) constraint is violated while the (b, a)
constraint is satisfied. -/
theorem swapped_direction_constraint_tie_counterexample :
    directionConditionHolds (direction_condition tieA tieB (some tieRef)) 0 1 = false ∧
    directionConditionHolds (direction_condition tieB tieA (some tieRef)) 1 0 = true := by
  have h1 : compare_relative_longitude tieA tieB tieRef = "EAST" := by
    unfold compare_relative_longitude
    rw [if_neg]
    norm_num [cx, tieA, tieB, tieRef]
  have h2 : compare_relative_longitude tieB tieA tieRef = "EAST" := by
    unfold compare_relative_longitude
    rw [if_neg]
    norm_num [cx, tieA, tieB, tieRef]
  have hle : ¬ ((1 : ℚ) ≤ 0) := by norm_num
  have hle2 : (0 : ℚ) ≤ 1 := by norm_num
  constructor
  · simp [direction_condition, h1, directionConditionHolds, hle]
  · simp [direction_condition, h2, directionConditionHolds, hle2]

/-- C6 (amended): whenever the two objects' centers are not equidistant from
the reference center, swapping the two objects and re-deriving the direction
yields a rendered constraint imposing the same ordering on the two objects'
longitudes. -/
theorem swapped_direction_constraint_equivalent_off_tie :
    ∀ (a b s : ObjectBox) (x_a x_b : ℚ),
      |cx a - cx s| ≠ |cx b - cx s| →
      directionConditionHolds (direction_condition a b (some s)) x_a x_b =
        directionConditionHolds (direction_condition b a (some s)) x_b x_a := by
  intro a b s x_a x_b h
  have hstr : (" AND ST_X(b.location) <= ST_X(a.location) " : String) ≠
      " AND ST_X(a.location) <= ST_X(b.location) " := by decide
  rcases lt_or_gt_of_ne h with hlt | hgt
  · have h1 : compare_relative_longitude a b s = "WEST" := by
      unfold compare_relative_longitude; rw [if_pos hlt]
    have h2 : compare_relative_longitude b a s = "EAST" := by
      unfold compare_relative_longitude; rw [if_neg (not_lt.mpr (le_of_lt hlt))]
    simp [direction_condition, h1, h2, directionConditionHolds, hstr]
  · have h1 : compare_relative_longitude a b s = "EAST" := by
      unfold compare_relative_longitude; rw [if_neg (not_lt.mpr (le_of_lt hgt))]
    have h2 : compare_relative_longitude b a s = "WEST" := by
      unfold compare_relative_longitude; rw [if_pos hgt]
    simp [direction_condition, h1, h2, directionConditionHolds, hstr]

/-- C6 witness: the scenario objects are off-tie, and the swapped rendering
imposes the same ordering at concrete longitudes (0, 1). -/
theorem swapped_direction_constraint_equivalent_off_tie_witness :
    |cx towerObj - cx sunsetObj| ≠ |cx bridgeObj - cx sunsetObj| ∧
    directionConditionHolds (direction_condition towerObj bridgeObj (some sunsetObj)) 0 1 =
      directionConditionHolds (direction_condition bridgeObj towerObj (some sunsetObj)) 1 0 := by
  have h : |cx towerObj - cx sunsetObj| ≠ |cx bridgeObj - cx sunsetObj| := by
    norm_num [cx, towerObj, bridgeObj, sunsetObj]
  exact ⟨h, swapped_direction_constraint_equivalent_off_tie towerObj bridgeObj sunsetObj 0 1 h⟩

/-! ## Result filtering (C2) -/

/-- C2 counterexample: a record whose rows are the collaborator error marker
is a non-empty list, so `filter_results` keeps it, and ranking turns it into a
location pair with empty names, distance 0 and match count 0 — a failed query
execution does contribute a (degenerate) pair to the ranked output. -/
theorem result_filter_error_marker_counterexample :
    filter_results ["q"] [[errorRow "db failure"]] =
      [⟨"q", [errorRow "db failure"]⟩] ∧
    top_locations [⟨"q", [errorRow "db failure"]⟩] [towerObj] =
      [⟨"", "", "", "", 0, 0⟩] := by
  constructor
  · rfl
  · have h79 : decide ((0.7 : ℚ) < 0.9) = true := decide_eq_true (by norm_num)
    simp [top_locations, sorted_locations, all_locations, all_rows, dedupeRows,
      object_labels, high_confidence_objects, mkLocationInfo, pair_key, errorRow,
      strContains, listInfixOf, listStartsWith, towerObj, h79]

/-- C2 (amended): `filter_results` discards exactly the records whose row
list is empty: every surviving record has non-empty rows, and every zipped
(statement, rows) pair with non-empty rows — error-marker rows included —
survives. -/
theorem result_filter_discards_exactly_empty :
    (∀ (sqls : List String) (results : List (List Row)) (q : SqlResult),
        q ∈ filter_results sqls results → q.result ≠ []) ∧
    (∀ (sqls : List String) (results : List (List Row)) (s : String) (r : List Row),
        (s, r) ∈ sqls.zip results → r ≠ [] →
          (⟨s, r⟩ : SqlResult) ∈ filter_results sqls results) := by
  constructor
  · intro sqls results q hmem
    rw [filter_results, List.mem_filterMap] at hmem
    obtain ⟨p, _, he⟩ := hmem
    split at he
    · rename_i h
      injection he with he'
      subst he'
      intro hnil
      have h2 : p.2 = [] := hnil
      rw [h2] at h
      simp at h
    · exact absurd he (by simp)
  · intro sqls results s r hz hne
    rw [filter_results, List.mem_filterMap]
    exact ⟨(s, r), hz, by rw [if_pos (List.length_pos.mpr hne)]⟩

/-- C2 witness: the concrete error-marker record survives filtering and has
non-empty rows. -/
theorem result_filter_discards_exactly_empty_witness :
    (⟨"q", [errorRow "db failure"]⟩ : SqlResult) ∈
      filter_results ["q"] [[errorRow "db failure"]] ∧
    (⟨"q", [errorRow "db failure"]⟩ : SqlResult).result ≠ [] := by
  have h1 := result_filter_discards_exactly_empty.2 ["q"] [[errorRow "db failure"]]
    "q" [errorRow "db failure"] (by simp) (by simp)
  exact ⟨h1, result_filter_discards_exactly_empty.1 ["q"] [[errorRow "db failure"]] _ h1⟩

/-! ## Intent classification (C9) -/

/-- C9 counterexample: the classifier response `"REASONING"` is outside the
two labels, yet `classify_intent` resolves it to `"reasoning"` (after
`.strip().lower()`), not to the `"chat"` fail-safe. -/
theorem classify_intent_uppercase_counterexample :
    classify_intent (fun _ => "REASONING") "hello" = "reasoning" ∧
    ¬ (("REASONING" : String) = "chat" ∨ ("REASONING" : String) = "reasoning") := by
  exact ⟨rfl, by decide⟩

/-- C9 (amended): `classify_intent` always returns `"chat"` or `"reasoning"`;
any response whose stripped, lowercased form is outside the two labels is
coerced to `"chat"`; in particular the response `"maybe"` resolves to
`"chat"`. -/
theorem classify_intent_two_labels_and_coercion :
    ∀ (gen : List Message → String) (user_text : String),
      (classify_intent gen user_text = "chat" ∨
        classify_intent gen user_text = "reasoning") ∧
      (pyLower (pyStrip (gen (intentMessages user_text))) ≠ "chat" →
        pyLower (pyStrip (gen (intentMessages user_text))) ≠ "reasoning" →
        classify_intent gen user_text = "chat") ∧
      classify_intent (fun _ => "maybe") user_text = "chat" := by
  intro gen user_text
  have heq : classify_intent gen user_text =
      (if (decide (pyLower (pyStrip (gen (intentMessages user_text))) = "chat") ||
            decide (pyLower (pyStrip (gen (intentMessages user_text))) = "reasoning")) = true
        then pyLower (pyStrip (gen (intentMessages user_text))) else "chat") := rfl
  refine ⟨?_, ?_, rfl⟩
  · rw [heq]
    split
    · rename_i h
      simp only [Bool.or_eq_true, decide_eq_true_eq] at h
      exact h
    · exact Or.inl rfl
  · intro h1 h2
    rw [heq]
    simp [h1, h2]

/-- C9 witness: a response outside the labels even after normalization is
coerced to `"chat"`, and `"maybe"` resolves to `"chat"`. -/
theorem classify_intent_two_labels_and_coercion_witness :
    classify_intent (fun _ => "xyz") "hi" = "chat" ∧
    classify_intent (fun _ => "maybe") "hi" = "chat" :=
  ⟨(classify_intent_two_labels_and_coercion (fun _ => "xyz") "hi").2.1
      (by decide) (by decide),
    (classify_intent_two_labels_and_coercion (fun _ => "irrelevant") "hi").2.2⟩

/-! ## The summarizer's empty-objects guard (C10) -/

/-- C10: when the detected-object list is empty the summarizer returns the
fixed no-result message and its output does not depend on the external text
generator, regardless of the filtered query results. -/
theorem summarizer_empty_objects_no_result :
    ∀ (gen gen₂ : List Message → String) (st : AgentState),
      st.objects = [] →
        summarize_result_operator gen st = { st with summary := noResultMsg } ∧
        summarize_result_operator gen st = summarize_result_operator gen₂ st := by
  intro gen gen₂ st h
  have hb : st.objects.isEmpty = true := by simp [h]
  constructor
  · unfold summarize_result_operator
    rw [hb]
    simp
  · unfold summarize_result_operator
    rw [hb]
    simp

/-- C10 witness: a concrete state with empty objects but a non-empty filtered
result still yields the fixed no-result message. -/
theorem summarizer_empty_objects_no_result_witness :
    summarize_result_operator (fun _ => "generated text")
        { objects := [], filter_results := [⟨"q", [{ a_name := some "X" }]⟩] } =
      { ({ objects := [], filter_results := [⟨"q", [{ a_name := some "X" }]⟩] } : AgentState)
          with summary := noResultMsg } :=
  (summarizer_empty_objects_no_result (fun _ => "generated text")
    (fun _ => "other text") _ rfl).1

/-! ## Template selection (C7) -/

/-- No filtered records means no location options. -/
lemma num_locations_nil (objs : List ObjectBox) : num_locations [] objs = 0 := by
  simp [num_locations, sorted_locations, all_locations, all_rows, dedupeRows]

/-- C7: with a non-empty detected-object list, the summarizer's structural
template is chosen from the number of ranked location options: no filtered
results or zero options yield the fixed no-result message without consulting
the generator; one, two, and three-or-more options select the one-, two- and
three-paragraph instruction templates respectively. -/
theorem narrative_template_by_num_locations :
    ∀ (gen : List Message → String) (st : AgentState),
      st.objects ≠ [] →
      ((st.filter_results = [] ∨ num_locations st.filter_results st.objects = 0) →
          (summarize_result_operator gen st).summary = noResultMsg ∧
          ∀ gen₂, summarize_result_operator gen₂ st = summarize_result_operator gen st) ∧
      (num_locations st.filter_results st.objects = 1 →
          (summarize_result_operator gen st).summary =
            cleanupSummary (gen (summaryMessages format_instructions_one
              paragraph_guidance_one
              (format_results_for_llm st.filter_results st.objects).1))) ∧
      (num_locations st.filter_results st.objects = 2 →
          (summarize_result_operator gen st).summary =
            cleanupSummary (gen (summaryMessages format_instructions_two
              paragraph_guidance_two
              (format_results_for_llm st.filter_results st.objects).1))) ∧
      (3 ≤ num_locations st.filter_results st.objects →
          (summarize_result_operator gen st).summary =
            cleanupSummary (gen (summaryMessages format_instructions_three
              paragraph_guidance_three
              (format_results_for_llm st.filter_results st.objects).1))) := by
  intro gen st hobj
  have hobjE : st.objects.isEmpty = false := by
    cases hobjs : st.objects with
    | nil => exact absurd hobjs hobj
    | cons a t => rfl
  have hfmt2 : (format_results_for_llm st.filter_results st.objects).2 =
      num_locations st.filter_results st.objects := rfl
  refine ⟨?_, ?_, ?_, ?_⟩
  · rintro (hfr | hn0)
    · have hfrE : st.filter_results.isEmpty = true := by rw [hfr]; rfl
      constructor
      · unfold summarize_result_operator
        rw [hfrE]
        simp
      · intro gen₂
        unfold summarize_result_operator
        rw [hfrE]
        simp
    · by_cases hfr : st.filter_results = []
      · have hfrE : st.filter_results.isEmpty = true := by rw [hfr]; rfl
        constructor
        · unfold summarize_result_operator
          rw [hfrE]
          simp
        · intro gen₂
          unfold summarize_result_operator
          rw [hfrE]
          simp
      · have hfrE : st.filter_results.isEmpty = false := by
          cases hfrs : st.filter_results with
          | nil => exact absurd hfrs hfr
          | cons a t => rfl
        constructor
        · unfold summarize_result_operator
          rw [hfrE, hobjE]
          simp [hfmt2, hn0]
        · intro gen₂
          unfold summarize_result_operator
          rw [hfrE, hobjE]
          simp [hfmt2, hn0]
  · intro h1
    have hfr : st.filter_results ≠ [] := by
      intro hnil
      rw [hnil, num_locations_nil] at h1
      exact absurd h1 (by decide)
    have hfrE : st.filter_results.isEmpty = false := by
      cases hfrs : st.filter_results with
      | nil => exact absurd hfrs hfr
      | cons a t => rfl
    unfold summarize_result_operator
    rw [hfrE, hobjE]
    simp [hfmt2, h1]
  · intro h2
    have hfr : st.filter_results ≠ [] := by
      intro hnil
      rw [hnil, num_locations_nil] at h2
      exact absurd h2 (by decide)
    have hfrE : st.filter_results.isEmpty = false := by
      cases hfrs : st.filter_results with
      | nil => exact absurd hfrs hfr
      | cons a t => rfl
    unfold summarize_result_operator
    rw [hfrE, hobjE]
    simp [hfmt2, h2]
  · intro h3
    have hfr : st.filter_results ≠ [] := by
      intro hnil
      rw [hnil, num_locations_nil] at h3
      omega
    have hfrE : st.filter_results.isEmpty = false := by
      cases hfrs : st.filter_results with
      | nil => exact absurd hfrs hfr
      | cons a t => rfl
    have hn0 : num_locations st.filter_results st.objects ≠ 0 := by omega
    have hn1 : num_locations st.filter_results st.objects ≠ 1 := by omega
    have hn2 : num_locations st.filter_results st.objects ≠ 2 := by omega
    unfold summarize_result_operator
    rw [hfrE, hobjE]
    simp [hfmt2, hn0, hn1, hn2]

/-- C7 witness: a concrete state with a detected object and no filtered
results yields the fixed no-result message. -/
theorem narrative_template_by_num_locations_witness :
    (summarize_result_operator (fun _ => "text")
        { objects := [towerObj], filter_results := [] }).summary = noResultMsg :=
  ((narrative_template_by_num_locations (fun _ => "text")
      { objects := [towerObj], filter_results := [] } (by simp)).1 (Or.inl rfl)).1

/-! ## Terminal punctuation of the summary (C8) -/

/-- Does the string end with `'.'`, `'!'` or `'?'`? -/
def endsWithSentencePunct (s : String) : Bool :=
  match s.data.getLast? with
  | none => false
  | some c => isSentencePunct c

/-- The cleanup pass yields the empty string or a string ending in sentence
punctuation. -/
lemma cleanupSummary_empty_or_punct (s : String) :
    cleanupSummary s = "" ∨ endsWithSentencePunct (cleanupSummary s) = true := by
  unfold cleanupSummary
  by_cases h : s = ""
  · rw [if_pos h]
    left
    exact h
  · rw [if_neg h]
    dsimp only
    generalize (List.intercalate ['\n', '\n']
      (cleanParagraphs
        (List.map String.data
          (String.splitOn
            (String.mk
              (List.intercalate ['\n', '\n']
                (List.filter (fun l => !l.isEmpty)
                  (cleanLines (splitOnChar '\n'
                    (collapseNewlineRuns (collapseSpaceTab (pyStripChars s.data))))))))
            "\n\n")))) = l
    unfold ensureEndsPunct
    cases hl : l.getLast? with
    | none =>
      left
      have hnil : l = [] := by
        cases l with
        | nil => rfl
        | cons a t => simp at hl
      subst hnil
      rfl
    | some c =>
      right
      dsimp only
      by_cases hp : isSentencePunct c = true
      · rw [if_pos hp]
        simp [endsWithSentencePunct, hl, hp]
      · rw [if_neg hp]
        have hcat : (l ++ ['.']).getLast? = some '.' := List.getLast?_concat l
        simp [endsWithSentencePunct, hcat, isSentencePunct]

/-- C8 (amended): for every generator output and every state, the summary the
operator stores is either empty or ends with `'.'`, `'!'` or `'?'` (the empty
case arises when the generator returns the empty string, which bypasses the
cleanup entirely, or when cleanup removes everything). -/
theorem summary_ends_with_punct_or_empty :
    ∀ (gen : List Message → String) (st : AgentState),
      (summarize_result_operator gen st).summary = "" ∨
      endsWithSentencePunct (summarize_result_operator gen st).summary = true := by
  intro gen st
  have hnr : endsWithSentencePunct noResultMsg = true := by decide
  unfold summarize_result_operator
  by_cases h1 : (st.filter_results.isEmpty || st.objects.isEmpty) = true
  · rw [if_pos h1]
    right
    exact hnr
  · rw [if_neg h1]
    dsimp only
    by_cases h2 : (format_results_for_llm st.filter_results st.objects).2 = 0
    · rw [if_pos h2]
      right
      exact hnr
    · rw [if_neg h2]
      exact cleanupSummary_empty_or_punct _

/-- C8 counterexample: a state that reaches the generator (one location
option) with a generator returning the empty string produces an empty
summary, which does not end with sentence punctuation — the guarantee as
stated fails for the empty generator output. -/
theorem summary_empty_generator_counterexample :
    (summarize_result_operator (fun _ => "")
        { objects := [sunsetObj],
          filter_results := [⟨"q", [{ a_name := some "X", b_name := some "Y" }]⟩] }).summary
      = "" ∧
    endsWithSentencePunct "" = false := by
  constructor
  · have hnum : num_locations
        [⟨"q", [{ a_name := some "X", b_name := some "Y" }]⟩] [sunsetObj] = 1 := by
      simp [num_locations, sorted_locations, all_locations, all_rows, dedupeRows,
        object_labels, high_confidence_objects, sunsetObj]
    unfold summarize_result_operator
    rw [if_neg (by simp)]
    dsimp only
    rw [if_neg (by rw [show (format_results_for_llm
      [⟨"q", [{ a_name := some "X", b_name := some "Y" }]⟩] [sunsetObj]).2 =
        num_locations [⟨"q", [{ a_name := some "X", b_name := some "Y" }]⟩] [sunsetObj]
      from rfl, hnum]; decide)]
    simp [cleanupSummary]
  · rfl

/-! ## Ranking properties (C4) -/

/-- The order-independent key of a built location entry (its two names,
sorted). -/
def locKey (x : LocationInfo) : List Char × List Char :=
  if charListLe x.location_a_name.data x.location_b_name.data
  then (x.location_a_name.data, x.location_b_name.data)
  else (x.location_b_name.data, x.location_a_name.data)

/-- Building an entry preserves the key. -/
lemma locKey_mkLocationInfo (labels : List String) (r : Row) :
    locKey (mkLocationInfo labels r) = pair_key r := rfl

/-- The deduplication loop restricted to rows: keep a row exactly when its key
is unseen. -/
def keepFirstRows : List Row → List (List Char × List Char) → List Row
  | [], _ => []
  | r :: rest, seen =>
    if pair_key r ∈ seen then keepFirstRows rest seen
    else r :: keepFirstRows rest (pair_key r :: seen)

/-- The loop builds exactly the entries of the first-occurrence rows. -/
lemma dedupeRows_eq_map (labels : List String) :
    ∀ (rows : List Row) (seen : List (List Char × List Char)),
      dedupeRows labels rows seen = (keepFirstRows rows seen).map (mkLocationInfo labels) := by
  intro rows
  induction rows with
  | nil => intro seen; rfl
  | cons r rest ih =>
    intro seen
    by_cases h : pair_key r ∈ seen
    · simp [dedupeRows, keepFirstRows, h, ih]
    · simp [dedupeRows, keepFirstRows, h, ih]

/-- The kept rows have pairwise-distinct keys, none of them already seen. -/
lemma keepFirstRows_nodup :
    ∀ (rows : List Row) (seen : List (List Char × List Char)),
      ((keepFirstRows rows seen).map pair_key).Nodup ∧
      ∀ k ∈ (keepFirstRows rows seen).map pair_key, k ∉ seen := by
  intro rows
  induction rows with
  | nil => intro seen; exact ⟨List.nodup_nil, by simp [keepFirstRows]⟩
  | cons r rest ih =>
    intro seen
    by_cases h : pair_key r ∈ seen
    · simpa [keepFirstRows, h] using ih seen
    · obtain ⟨ihn, ihd⟩ := ih (pair_key r :: seen)
      simp only [keepFirstRows, if_neg h, List.map_cons]
      constructor
      · rw [List.nodup_cons]
        exact ⟨fun hm => (ihd _ hm) (List.mem_cons_self _ _), ihn⟩
      · intro k hk
        rcases List.mem_cons.mp hk with hk | hk
        · subst hk; exact h
        · exact fun hks => (ihd k hk) (List.mem_cons_of_mem _ hks)

/-- Kept rows come from the input rows. -/
lemma keepFirstRows_subset :
    ∀ (rows : List Row) (seen : List (List Char × List Char)) (r : Row),
      r ∈ keepFirstRows rows seen → r ∈ rows := by
  intro rows
  induction rows with
  | nil => intro seen r h; simp [keepFirstRows] at h
  | cons a rest ih =>
    intro seen r h
    by_cases ha : pair_key a ∈ seen
    · rw [keepFirstRows, if_pos ha] at h
      exact List.mem_cons_of_mem _ (ih _ _ h)
    · rw [keepFirstRows, if_neg ha] at h
      rcases List.mem_cons.mp h with h | h
      · subst h; exact List.mem_cons_self _ _
      · exact List.mem_cons_of_mem _ (ih _ _ h)

/-- The first row bearing a given key is kept. -/
lemma keepFirstRows_first_occ :
    ∀ (l₁ : List Row) (r : Row) (l₂ : List Row) (seen : List (List Char × List Char)),
      pair_key r ∉ l₁.map pair_key → pair_key r ∉ seen →
      r ∈ keepFirstRows (l₁ ++ r :: l₂) seen := by
  intro l₁
  induction l₁ with
  | nil =>
    intro r l₂ seen _ hs
    rw [List.nil_append, keepFirstRows, if_neg hs]
    exact List.mem_cons_self _ _
  | cons a t ih =>
    intro r l₂ seen h1 hs
    have hne : pair_key r ≠ pair_key a := by
      intro he
      exact h1 (by rw [List.map_cons]; exact he ▸ List.mem_cons_self _ _)
    have h1' : pair_key r ∉ t.map pair_key := by
      intro hm
      exact h1 (by rw [List.map_cons]; exact List.mem_cons_of_mem _ hm)
    rw [List.cons_append, keepFirstRows]
    by_cases ha : pair_key a ∈ seen
    · rw [if_pos ha]
      exact ih r l₂ seen h1' hs
    · rw [if_neg ha]
      refine List.mem_cons_of_mem _ (ih r l₂ (pair_key a :: seen) h1' ?_)
      intro hm
      rcases List.mem_cons.mp hm with he | hseen
      · exact hne he
      · exact hs hseen

/-- Transitivity of the sort comparison. -/
lemma locLe_trans : ∀ x y z : LocationInfo,
    locLe x y = true → locLe y z = true → locLe x z = true := by
  intro x y z hxy hyz
  simp only [locLe, decide_eq_true_eq] at hxy hyz ⊢
  rcases hxy with h1 | ⟨h1e, h1d⟩ <;> rcases hyz with h2 | ⟨h2e, h2d⟩
  · exact Or.inl (by omega)
  · exact Or.inl (by omega)
  · exact Or.inl (by omega)
  · exact Or.inr ⟨by omega, le_trans h1d h2d⟩

/-- Totality of the sort comparison. -/
lemma locLe_total : ∀ x y : LocationInfo, (locLe x y || locLe y x) = true := by
  intro x y
  simp only [locLe, Bool.or_eq_true, decide_eq_true_eq]
  rcases Nat.lt_trichotomy x.match_count y.match_count with h | h | h
  · exact Or.inr (Or.inl h)
  · rcases le_total x.distance y.distance with hd | hd
    · exact Or.inl (Or.inr ⟨h, hd⟩)
    · exact Or.inr (Or.inr ⟨h.symm, hd⟩)
  · exact Or.inl (Or.inl h)

/-- C4: the ranking (a) dedupes rows by the order-independent pair of
location names — the produced keys are pairwise distinct, the first row
bearing a key is the one kept, and every entry comes from some row; (b) each
entry's match count is the number of high-confidence non-reference detected
labels substring-contained in either of its names; (c) the sort is a
permutation ordered by descending match count then ascending distance, and
stable (ties keep their input order); (d) the returned list has length
`min(3, number of distinct deduplicated pairs)`. -/
theorem ranker_dedupe_sort_truncate :
    (∀ (fr : List SqlResult) (objs : List ObjectBox),
        ((all_locations fr objs).map locKey).Nodup) ∧
    (∀ (fr : List SqlResult) (objs : List ObjectBox) (l₁ : List Row) (r : Row) (l₂ : List Row),
        all_rows fr = l₁ ++ r :: l₂ → pair_key r ∉ l₁.map pair_key →
          mkLocationInfo (object_labels objs) r ∈ all_locations fr objs) ∧
    (∀ (fr : List SqlResult) (objs : List ObjectBox) (x : LocationInfo),
        x ∈ all_locations fr objs →
          ∃ r ∈ all_rows fr, x = mkLocationInfo (object_labels objs) r) ∧
    (∀ (fr : List SqlResult) (objs : List ObjectBox) (x : LocationInfo),
        x ∈ all_locations fr objs →
          x.match_count = ((object_labels objs).filter fun label =>
            strContains x.location_a_name label ||
              strContains x.location_b_name label).length) ∧
    (∀ (fr : List SqlResult) (objs : List ObjectBox),
        (sorted_locations fr objs).Pairwise fun x y =>
          y.match_count < x.match_count ∨
            (x.match_count = y.match_count ∧ x.distance ≤ y.distance)) ∧
    (∀ (fr : List SqlResult) (objs : List ObjectBox),
        (sorted_locations fr objs).Perm (all_locations fr objs)) ∧
    (∀ (fr : List SqlResult) (objs : List ObjectBox) (x y : LocationInfo),
        locLe x y = true → [x, y].Sublist (all_locations fr objs) →
          [x, y].Sublist (sorted_locations fr objs)) ∧
    (∀ (fr : List SqlResult) (objs : List ObjectBox),
        (top_locations fr objs).length = min 3 (num_locations fr objs) ∧
        num_locations fr objs = (all_locations fr objs).length) := by
  have hkey : ∀ (fr : List SqlResult) (objs : List ObjectBox),
      all_locations fr objs =
        (keepFirstRows (all_rows fr) []).map (mkLocationInfo (object_labels objs)) :=
    fun fr objs => dedupeRows_eq_map _ _ _
  refine ⟨fun fr objs => ?_, fun fr objs l₁ r l₂ hr hk => ?_, fun fr objs x hx => ?_,
    fun fr objs x hx => ?_, fun fr objs => ?_, fun fr objs => ?_,
    fun fr objs x y hxy hsub => ?_, fun fr objs => ⟨?_, ?_⟩⟩
  · rw [hkey, List.map_map]
    have hcomp : (locKey ∘ mkLocationInfo (object_labels objs)) = pair_key :=
      funext fun r => locKey_mkLocationInfo _ r
    rw [hcomp]
    exact (keepFirstRows_nodup (all_rows fr) []).1
  · rw [hkey]
    refine List.mem_map_of_mem _ ?_
    rw [hr]
    exact keepFirstRows_first_occ l₁ r l₂ [] hk (by simp)
  · rw [hkey] at hx
    obtain ⟨r, hrmem, hreq⟩ := List.mem_map.mp hx
    exact ⟨r, keepFirstRows_subset _ _ _ hrmem, hreq.symm⟩
  · rw [hkey] at hx
    obtain ⟨r, _, hreq⟩ := List.mem_map.mp hx
    subst hreq
    rfl
  · have := List.sorted_mergeSort locLe_trans locLe_total (all_locations fr objs)
    refine this.imp fun h => ?_
    simpa [locLe, decide_eq_true_eq] using h
  · exact List.mergeSort_perm _ _
  · exact List.pair_sublist_mergeSort locLe_trans locLe_total hxy hsub
  · rw [top_locations, List.length_take]
    rfl
  · rw [num_locations, sorted_locations, List.length_mergeSort]

/-- A concrete result row (names X/Y, distance 5). -/
def wRowA : Row := { a_name := some "X", b_name := some "Y", distance := some 5 }

/-- A concrete result row with the same order-independent key as `wRowA`
(names swapped). -/
def wRowB : Row := { a_name := some "Y", b_name := some "X" }

/-- A concrete result row with a fresh key (names Z/W, distance 7). -/
def wRowC : Row := { a_name := some "Z", b_name := some "W", distance := some 7 }

/-- C4 witness: on a concrete record, the first occurrence of a key is kept
(the swapped duplicate is dropped), every kept entry comes from a row, equal
sort keys keep their input order through the sort, and the output length is
`min 3` of the number of deduplicated pairs. -/
theorem ranker_dedupe_sort_truncate_witness :
    mkLocationInfo (object_labels []) wRowA ∈
      all_locations [⟨"q", [wRowA, wRowB, wRowC]⟩] [] ∧
    (∃ r ∈ all_rows [⟨"q", [wRowA, wRowB, wRowC]⟩],
        mkLocationInfo (object_labels []) wRowA = mkLocationInfo (object_labels []) r) ∧
    [mkLocationInfo (object_labels []) wRowA,
        mkLocationInfo (object_labels []) wRowC].Sublist
      (sorted_locations [⟨"q", [wRowA, wRowB, wRowC]⟩] []) ∧
    (top_locations [⟨"q", [wRowA, wRowB, wRowC]⟩] []).length =
      min 3 (num_locations [⟨"q", [wRowA, wRowB, wRowC]⟩] []) := by
  have h1 := ranker_dedupe_sort_truncate.2.1 [⟨"q", [wRowA, wRowB, wRowC]⟩] []
    [] wRowA [wRowB, wRowC] rfl (by simp)
  have hA : all_locations [⟨"q", [wRowA, wRowB, wRowC]⟩] [] =
      [mkLocationInfo (object_labels []) wRowA, mkLocationInfo (object_labels []) wRowC] := by
    simp [all_locations, all_rows, dedupeRows, pair_key, wRowA, wRowB, wRowC,
      charListLe, object_labels, high_confidence_objects]
  have hle : locLe (mkLocationInfo (object_labels []) wRowA)
      (mkLocationInfo (object_labels []) wRowC) = true := by
    apply decide_eq_true
    refine Or.inr ⟨rfl, ?_⟩
    show (5 : ℚ) ≤ 7
    norm_num
  have hsub := ranker_dedupe_sort_truncate.2.2.2.2.2.2.1
    [⟨"q", [wRowA, wRowB, wRowC]⟩] [] _ _ hle
    (by rw [hA])
  exact ⟨h1, ranker_dedupe_sort_truncate.2.2.1 _ _ _ h1, hsub,
    (ranker_dedupe_sort_truncate.2.2.2.2.2.2.2 _ _).1⟩

end NeuralSymbolic
